import Mathlib

/-!
# Verification of the Zephyr-for-JIRA client (src/zephyr/zephyr.py)

A shallow embedding of the client module.  HTTP traffic is modelled by a
function from URLs to responses (the transport), Python exceptions by an
explicit error type, and Python's implicit return of None by an Option
value.  Definitions follow the source file line by line; external
collaborators (the jira library, the resources module) that are not part
of the source tree are modelled from the specification, and each such
definition says so in its doc comment.
-/

/-- JSON values, as produced by response.json(). -/
inductive Json where
  | str : String → Json
  | num : Int → Json
  | bool : Bool → Json
  | null : Json
  | arr : List Json → Json
  | obj : List (String × Json) → Json

/-- A completed HTTP response as the client sees it: the status code, the
raw body (requests' response.content is a bytes object; the field holds
its text), and the result of parsing the body as JSON (none when the body
is not valid JSON, in which case response.json() raises). -/
structure HttpResponse where
  status_code : Nat
  content : String
  json : Option Json

/-- Python-level failures that the client code can raise:
jira.JIRAError (optionally constructed with a response= argument),
AttributeError (attribute access on a value lacking it, e.g. None.json()),
IndexError (a str.format replacement index out of range),
ValueError (failed iterable unpacking, or an unparseable JSON body), and
TypeError (an operation on operands of incompatible types, e.g. testing a
str for membership in a bytes object). -/
inductive PyErr where
  | jiraError : Option HttpResponse → PyErr
  | attributeError : PyErr
  | indexError : PyErr
  | valueError : PyErr
  | typeError : PyErr

/-- Whether the char list a occurs as a contiguous run at the start of b. -/
def startsWithL : List Char → List Char → Bool
  | [], _ => true
  | _ :: _, [] => false
  | a :: as, b :: bs => a == b && startsWithL as bs

/-- Whether the char list sub occurs contiguously anywhere inside b. -/
def infixL (sub : List Char) : List Char → Bool
  | [] => startsWithL sub []
  | b :: bs => startsWithL sub (b :: bs) || infixL sub bs

/-- Python's `sub in s` on strings: substring containment. -/
def strContainsSub (s sub : String) : Bool := infixL sub.data s.data

/-- Python 3 `sub in b` where sub is a str and b is a bytes object (given
here by its text): the membership test raises TypeError — "a bytes-like
object is required, not str" — whatever the contents of either operand
are, so it never yields a Bool. -/
def strInBytes (_sub : String) (_bText : String) : Except PyErr Bool :=
  Except.error PyErr.typeError

/-- Core of Python str.format with auto-numbered replacement fields, on the
character list of the template: each occurrence of \x7b\x7d consumes the next
positional argument; running out of arguments is an IndexError (none).
The templates of this module use only plain \x7b\x7d fields, so no other
format syntax is modelled. -/
def formatChars : List Char → List String → Option (List Char)
  | [], _ => some []
  | '\x7b' :: '\x7d' :: rest, a :: args => (formatChars rest args).map (fun t => a.data ++ t)
  | '\x7b' :: '\x7d' :: _, [] => none
  | c :: rest, args => (formatChars rest args).map (fun t => c :: t)

/-- Python template.format(args...): some url on success, none for the
IndexError raised when a replacement field has no matching argument
(surplus arguments are ignored, as in Python). -/
def pyFormat (template : String) (args : List String) : Option String :=
  (formatChars template.data args).map String.mk

/-- ZAPI_URL = '\x7b\x7d/rest/zapi/latest/' (zephyr.py line 19). -/
def ZAPI_URL : String := "\x7b\x7d/rest/zapi/latest/"

/-- EMPTY_CYCLES_REQUEST = ZAPI_URL + 'cycle?expand=' (line 20). -/
def EMPTY_CYCLES_REQUEST : String := ZAPI_URL ++ "cycle?expand="

/-- EXECUTIONS_ZQL_URL = ZAPI_URL + 'zql/executeSearch?zqlQuery=\x7b\x7d' (line 23). -/
def EXECUTIONS_ZQL_URL : String := ZAPI_URL ++ "zql/executeSearch?zqlQuery=\x7b\x7d"

/-- MOVE_EXEUCTIONS_URL = ZAPI_URL + 'cycle/\x7b\x7d/move/executions/folder/\x7b\x7d' (line 24). -/
def MOVE_EXEUCTIONS_URL : String := ZAPI_URL ++ "cycle/\x7b\x7d/move/executions/folder/\x7b\x7d"

/-- ERROR_DESC = 'errorDesc' (line 26). -/
def ERROR_DESC : String := "errorDesc"

/-- Modelled from the spec: jira.resilientsession.raise_on_error, a function
of the external jira library (not part of this repository).  Per spec 4.2 it
"inspects status codes and raises a domain-specific error carrying the
response for any non-success status", where non-success means any non-2xx
status (spec 8, property 2).  Applied to Python None (which carries no
status) it raises the domain error with no response attached. -/
def resilientsession.raise_on_error (r : Option HttpResponse) : Except PyErr Unit :=
  match r with
  | Option.none => Except.error (PyErr.jiraError Option.none)
  | some resp =>
      if 200 ≤ resp.status_code ∧ resp.status_code < 300 then Except.ok ()
      else Except.error (PyErr.jiraError (some resp))

/-- Python truthiness of the value returned by dict.get: missing key (None),
empty string, zero, False, empty list and empty dict are falsy. -/
def truthy : Option Json → Bool
  | Option.none => false
  | some (Json.str s) => !(s == "")
  | some (Json.num n) => !(n == 0)
  | some (Json.bool b) => b
  | some Json.null => false
  | some (Json.arr l) => !l.isEmpty
  | some (Json.obj l) => !l.isEmpty

/-- Python v.get(key) on a parsed JSON body: a dict lookup returning None
when the key is absent; calling .get on a non-dict value (e.g. a parsed
JSON array) raises AttributeError. -/
def dictGet : Json → String → Except PyErr (Option Json)
  | Json.obj kvs, k => Except.ok (List.lookup k kvs)
  | _, _ => Except.error PyErr.attributeError

/-- Modelled from the spec: the resources module (imported at zephyr.py
line 9) is not part of the source tree.  Spec 3 describes a Project as an
"identifier (name/key, distinct from its integer id)" that "owns a
reference to the shared Session"; zephyr.py constructs it as
Project(name=x.key, id_=x.id, session=self._session).  The shared session
is represented by an opaque tag. -/
structure Project where
  name : String
  id_ : Int
  session : Nat
  deriving DecidableEq, Repr

/-- Modelled from the spec: the resources module's Folder, "a grouping of
executions within a cycle/version/project quadruple (project id, version
id, cycle id, folder id)" (spec 3); zephyr.py reads folder.project,
folder.version, folder.cycle and folder.id_. -/
structure Folder where
  project : Int
  version : Int
  cycle : Int
  id_ : Int
  deriving DecidableEq, Repr

/-- Modelled from the spec: the resources module's Execution, "a single
test-execution record, identified by an id" (spec 3); zephyr.py reads x.id. -/
structure Execution where
  id : Int
  deriving DecidableEq, Repr

/-- Modelled from the spec: a project record as returned by the external
jira library's discovery call, carrying a key (the name) and an integer id
(spec 6: "list all projects (returns name/key, integer id)");
zephyr.py reads x.key and x.id. -/
structure JiraProject where
  key : String
  id : Int
  deriving DecidableEq, Repr

/-- The JSON payload of the move_executions PUT: exactly the keys
projectId, versionId and schedulesList (zephyr.py lines 112-114). -/
structure MovePayload where
  projectId : Int
  versionId : Int
  schedulesList : List Int
  deriving DecidableEq, Repr

namespace Zephyr

/-- Zephyr.get (lines 99-104).  net models self._session.get restricted to
the URL (all call sites pass params=None, and the timeout is the fixed
configured value).  The response is passed to the jira library's
raise_on_error, then its parsed body's errorDesc entry is tested for
truthiness and a bare jira.JIRAError is raised when it is truthy.  The
method body has no return statement, so on success the Python value
returned is None (modelled as Except.ok Option.none). -/
def get (net : String → HttpResponse) (url : String) : Except PyErr (Option HttpResponse) :=
  let response := net url
  match resilientsession.raise_on_error (some response) with
  | Except.error e => Except.error e
  | Except.ok _ =>
    match response.json with
    | Option.none => Except.error PyErr.valueError
    | some j =>
      match dictGet j ERROR_DESC with
      | Except.error e => Except.error e
      | Except.ok error => if truthy error then Except.error (PyErr.jiraError Option.none)
                           else Except.ok Option.none

/-- Python attribute call v.json() on the value returned by Zephyr.get:
on a response object it yields the parsed JSON body (ValueError when the
body is unparseable); on None it raises AttributeError, since NoneType has
no attribute json. -/
def jsonMethod : Option HttpResponse → Except PyErr Json
  | Option.none => Except.error PyErr.attributeError
  | some r =>
    match r.json with
    | Option.none => Except.error PyErr.valueError
    | some j => Except.ok j

/-- Zephyr.executions_zql (lines 86-97): format EXECUTIONS_ZQL_URL with
(self.server, query), issue the GET, and return response.json() where
response is the value Zephyr.get returned. -/
def executions_zql (net : String → HttpResponse) (server : String) (query : String) :
    Except PyErr Json :=
  match pyFormat EXECUTIONS_ZQL_URL [server, query] with
  | Option.none => Except.error PyErr.indexError
  | some url =>
    match get net url with
    | Except.error e => Except.error e
    | Except.ok response => jsonMethod response

/-- Zephyr._check_connection (lines 119-128): format EMPTY_CYCLES_REQUEST
with self.server, issue the GET, then call
jira.resilientsession.raise_on_error on the value the GET returned. -/
def _check_connection (net : String → HttpResponse) (server : String) : Except PyErr Unit :=
  match pyFormat EMPTY_CYCLES_REQUEST [server] with
  | Option.none => Except.error PyErr.indexError
  | some url =>
    match get net url with
    | Except.error e => Except.error e
    | Except.ok response => resilientsession.raise_on_error response

/-- Zephyr.raise_on_error (lines 144-158).  The condition on line 156,
response.status_code == 200 and ERROR_DESC in response.content, evaluates
left to right: when the status is not 200 the conjunction short-circuits
to False and the method delegates to the jira library's raise_on_error;
when the status is exactly 200 the right operand tests the str ERROR_DESC
for membership in the bytes response.content, which in Python 3 raises
TypeError, so the 401-rewrite branch below it can never execute. -/
def raise_on_error (response : HttpResponse) : Except PyErr Unit :=
  if response.status_code == 200 then
    match strInBytes ERROR_DESC response.content with
    | Except.error e => Except.error e
    | Except.ok cond =>
      let response := if cond then { response with status_code := 401 } else response
      resilientsession.raise_on_error (some response)
  else
    resilientsession.raise_on_error (some response)

/-- Zephyr.put (lines 106-107): issue the PUT through the session and
return the raw response unchecked.  transport models self._session.put
restricted to the URL and the JSON payload (the timeout is the fixed
configured value). -/
def put (transport : String → MovePayload → HttpResponse) (url : String)
    (data : MovePayload) : HttpResponse :=
  transport url data

/-- Zephyr.move_executions (lines 109-117): format MOVE_EXEUCTIONS_URL with
(folder.cycle, folder.id_), build the payload from folder.project,
folder.version and the execution ids in order, PUT it, and raise
jira.JIRAError carrying the response unless the status is 200. -/
def move_executions (transport : String → MovePayload → HttpResponse)
    (executions : List Execution) (folder : Folder) : Except PyErr Unit :=
  match pyFormat MOVE_EXEUCTIONS_URL [toString folder.cycle, toString folder.id_] with
  | Option.none => Except.error PyErr.indexError
  | some url =>
    let executionIds := executions.map (fun x => x.id)
    let payload : MovePayload :=
      { projectId := folder.project, versionId := folder.version, schedulesList := executionIds }
    let response := put transport url payload
    if response.status_code ≠ 200 then Except.error (PyErr.jiraError (some response))
    else Except.ok ()

/-- The mutable client state relevant to the project cache: the _projects
attribute, set to None at construction (zephyr.py line 45) to mark the
uninitialized state, and to the loaded list by _load_projects. -/
structure State where
  _projects : Option (List Project)
  deriving DecidableEq, Repr

/-- The state of a freshly constructed client: __init__ line 45 assigns
None to self._projects. -/
def initState : State := { _projects := Option.none }

/-- Zephyr._load_projects (lines 59-72): call the external jira library's
discovery (modelled by the list it returns), map each record to a
Project(name=x.key, id_=x.id, session=self._session), and store the list
in self._projects.  sessionTag stands for the shared self._session. -/
def _load_projects (discovery : List JiraProject) (sessionTag : Nat) (s : State) : State :=
  { s with _projects := some (discovery.map (fun x => { name := x.key, id_ := x.id, session := sessionTag })) }

/-- The projects property (lines 48-57): when self._projects is None, call
_load_projects, then return self._projects.  The result triple is the new
state, the Python value returned, and the number of discovery calls this
read performed. -/
def projects (discovery : List JiraProject) (sessionTag : Nat) (s : State) :
    State × Option (List Project) × Nat :=
  if s._projects = Option.none then
    let s2 := _load_projects discovery sessionTag s
    (s2, s2._projects, 1)
  else (s, s._projects, 0)

/-- Zephyr.project (lines 74-84): 'proj, = [x for x in self.projects if
x.name == name]' — filter the loaded collection by exact string equality on
the name and unpack exactly one element; unpacking a list whose length is
not 1 raises ValueError.  Stated over an already-loaded collection. -/
def project (ps : List Project) (name : String) : Except PyErr Project :=
  match ps.filter (fun x => x.name == name) with
  | [p] => Except.ok p
  | _ => Except.error PyErr.valueError

end Zephyr

/-- A response of the shape a structurally successful ZQL search yields:
status 200 and a JSON object body with no error descriptor. -/
def zqlOkResponse : HttpResponse :=
  { status_code := 200
    content := "\x7b\"executions\": []\x7d"
    json := some (Json.obj [("executions", Json.arr [])]) }

/-- A structurally successful response to the connectivity check: status
200 and an empty JSON object body. -/
def cyclesOkResponse : HttpResponse :=
  { status_code := 200, content := "\x7b\x7d", json := some (Json.obj []) }

/-- A disguised-failure response: status 200 with the raw body containing
the ERROR_DESC marker, whose errorDesc entry happens to be the empty
string (falsy under Python truthiness). -/
def disguisedAuthResponse : HttpResponse :=
  { status_code := 200
    content := "\x7b\"errorDesc\": \"\"\x7d"
    json := some (Json.obj [("errorDesc", Json.str "")]) }

/-- The permission-failure response of spec 8, property 7: status 200 with
body containing errorDesc 'no permission' and errorId 'ERROR'. -/
def permissionErrorResponse : HttpResponse :=
  { status_code := 200
    content := "\x7b\"errorDesc\": \"no permission\", \"errorId\": \"ERROR\"\x7d"
    json := some (Json.obj [("errorDesc", Json.str "no permission"),
                            ("errorId", Json.str "ERROR")]) }

/-- A 200 response whose body parses to a JSON array: it contains no error
marker and no error-description field at all. -/
def arrayBodyResponse : HttpResponse :=
  { status_code := 200, content := "[]", json := some (Json.arr []) }

/-- A genuine 401 response. -/
def unauthorizedResponse : HttpResponse :=
  { status_code := 401, content := "", json := Option.none }

/-- A PUT transport whose every response has status 200. -/
def okTransport : String → MovePayload → HttpResponse :=
  fun _ _ => { status_code := 200, content := "\x7b\x7d", json := some (Json.obj []) }

/-- A loaded project collection with exactly one project named FOO,
one named foo (differing only in case) and one named BAR. -/
def demoProjects : List Project :=
  [{ name := "FOO", id_ := 1, session := 0 },
   { name := "foo", id_ := 2, session := 0 },
   { name := "BAR", id_ := 3, session := 0 }]

/-- A one-element discovery result: the jira library reports a single
project with key FOO and id 1. -/
def fooDiscovery : List JiraProject := [{ key := "FOO", id := 1 }]

/-- Evaluating the ZQL search template symbolically: the server argument
fills the first replacement field and the query the second. -/
theorem pyFormat_executions_zql (s q : String) :
    pyFormat EXECUTIONS_ZQL_URL [s, q] =
      some (s ++ "/rest/zapi/latest/zql/executeSearch?zqlQuery=" ++ q) := by
  obtain ⟨l1⟩ := s
  obtain ⟨l2⟩ := q
  simp [pyFormat, EXECUTIONS_ZQL_URL, ZAPI_URL, formatChars]
  refine congrArg String.mk ?_
  rw [List.append_assoc]
  rfl

/-- Evaluating the connectivity-check template symbolically: the server
argument fills its only replacement field. -/
theorem pyFormat_empty_cycles (s : String) :
    pyFormat EMPTY_CYCLES_REQUEST [s] = some (s ++ "/rest/zapi/latest/cycle?expand=") := by
  obtain ⟨l1⟩ := s
  simp [pyFormat, EMPTY_CYCLES_REQUEST, ZAPI_URL, formatChars]
  exact congrArg String.mk rfl

/-- The move-executions template has three replacement fields but
move_executions supplies only two arguments, so Python str.format raises
IndexError whatever the arguments are. -/
theorem pyFormat_move_executions (a b : String) :
    pyFormat MOVE_EXEUCTIONS_URL [a, b] = Option.none := rfl

/-- String append is right-cancellative. -/
theorem String.append_cancel_right_thm (s1 s2 t : String) (h : s1 ++ t = s2 ++ t) :
    s1 = s2 := by
  obtain ⟨l1⟩ := s1
  obtain ⟨l2⟩ := s2
  obtain ⟨l3⟩ := t
  have h2 : l1 ++ l3 = l2 ++ l3 := congrArg String.data h
  exact congrArg String.mk (List.append_cancel_right h2)

/-- The value Zephyr.get returns on success is always Python None: the
method body has no return statement. -/
theorem Zephyr.get_ok_none (net : String → HttpResponse) (url : String)
    (v : Option HttpResponse) (h : Zephyr.get net url = Except.ok v) :
    v = Option.none := by
  simp only [Zephyr.get] at h
  split at h
  · exact absurd h (by simp)
  · split at h
    · exact absurd h (by simp)
    · split at h
      · exact absurd h (by simp)
      · split at h
        · exact absurd h (by simp)
        · exact (Except.ok.inj h).symm

/-- C1: evaluation at the failing scenario: against a server whose answer
is structurally successful (status 200, JSON object body, no error
descriptor), Zephyr.get succeeds returning Python None, and
executions_zql, which calls .json() on that returned value, raises
AttributeError instead of returning the parsed JSON body. -/
theorem C1_executions_zql_raises_attributeError :
    Zephyr.get (fun _ => zqlOkResponse)
        "https://jira/rest/zapi/latest/zql/executeSearch?zqlQuery=project = FOO" =
      Except.ok Option.none ∧
    Zephyr.executions_zql (fun _ => zqlOkResponse) "https://jira" "project = FOO" =
      Except.error PyErr.attributeError :=
  ⟨rfl, rfl⟩

/-- C2: whenever the connectivity-check GET passes get's internal
validation, the value get hands back is Python None, and the second error
check of _check_connection is exactly the library's raise-on-error check
applied to that None — it never receives an actual response object. -/
theorem C2_check_connection_checks_none (net : String → HttpResponse) (server url : String)
    (v : Option HttpResponse)
    (hurl : pyFormat EMPTY_CYCLES_REQUEST [server] = some url)
    (hok : Zephyr.get net url = Except.ok v) :
    v = Option.none ∧
    Zephyr._check_connection net server = resilientsession.raise_on_error Option.none := by
  have hv := Zephyr.get_ok_none net url v hok
  subst hv
  refine ⟨rfl, ?_⟩
  simp [Zephyr._check_connection, hurl, hok]

/-- C2 witness: the theorem at a concrete transport and server. -/
theorem C2_check_connection_checks_none_witness :
    (Option.none : Option HttpResponse) = Option.none ∧
    Zephyr._check_connection (fun _ => cyclesOkResponse) "https://jira" =
      resilientsession.raise_on_error Option.none :=
  C2_check_connection_checks_none (fun _ => cyclesOkResponse) "https://jira"
    "https://jira/rest/zapi/latest/cycle?expand=" Option.none rfl rfl

/-- C3: evaluation at the failing input disguisedAuthResponse (status
exactly 200, raw body containing the errorDesc marker).  The GET request
path calls the library check directly, never invokes the client's own
raise_on_error method, and on this response raises nothing at all — no
rewrite to 401 happens on the request path.  Nor could the method itself
deliver the claimed behavior were it invoked: on every 200 response its
str-in-bytes membership test raises TypeError, which is not the error a
genuine 401 response raises through the library check. -/
theorem C3_rewrite_not_on_request_path :
    disguisedAuthResponse.status_code = 200 ∧
    strContainsSub disguisedAuthResponse.content ERROR_DESC = true ∧
    Zephyr.get (fun _ => disguisedAuthResponse) "https://jira/rest/zapi/latest/cycle?expand=" =
      Except.ok Option.none ∧
    Zephyr.raise_on_error disguisedAuthResponse = Except.error PyErr.typeError ∧
    resilientsession.raise_on_error (some unauthorizedResponse) =
      Except.error (PyErr.jiraError (some unauthorizedResponse)) :=
  ⟨rfl, rfl, rfl, rfl, rfl⟩

/-- C4 counterexample: two clients differing only in the server argument
format different search URLs for the same query, so the stored server
field is read when formatting request URLs. -/
theorem C4_server_field_read_counterexample :
    pyFormat EXECUTIONS_ZQL_URL ["https://a", "project = FOO"] ≠
      pyFormat EXECUTIONS_ZQL_URL ["https://b", "project = FOO"] := by decide

/-- C4 amended: the stored server field is read: every request URL embeds
the constructor's server argument (the module constant is only its default
value), so clients constructed with different server arguments format
different URLs, both for the ZQL search and for the connectivity check. -/
theorem C4_different_servers_different_urls (s1 s2 q : String) (h : s1 ≠ s2) :
    pyFormat EXECUTIONS_ZQL_URL [s1, q] ≠ pyFormat EXECUTIONS_ZQL_URL [s2, q] ∧
    pyFormat EMPTY_CYCLES_REQUEST [s1] ≠ pyFormat EMPTY_CYCLES_REQUEST [s2] := by
  constructor
  · rw [pyFormat_executions_zql, pyFormat_executions_zql]
    intro hc
    apply h
    have h2 := Option.some.inj hc
    have h3 := String.append_cancel_right_thm _ _ q h2
    exact String.append_cancel_right_thm _ _ _ h3
  · rw [pyFormat_empty_cycles, pyFormat_empty_cycles]
    intro hc
    exact h (String.append_cancel_right_thm _ _ _ (Option.some.inj hc))

/-- C4 witness: the amended theorem at two concrete servers. -/
theorem C4_different_servers_different_urls_witness :
    pyFormat EXECUTIONS_ZQL_URL ["https://x", "q"] ≠
      pyFormat EXECUTIONS_ZQL_URL ["https://y", "q"] ∧
    pyFormat EMPTY_CYCLES_REQUEST ["https://x"] ≠
      pyFormat EMPTY_CYCLES_REQUEST ["https://y"] :=
  C4_different_servers_different_urls "https://x" "https://y" "q" (by decide)

/-- C5 counterexample: at a concrete folder (cycle 30, folder 40) and a
transport answering every PUT with status 200, move_executions raises
IndexError: it does not issue the PUT the claim describes (with a
successful PUT it would have returned without error). -/
theorem C5_move_executions_counterexample :
    Zephyr.move_executions okTransport [{ id := 5 }]
        { project := 10, version := 20, cycle := 30, id_ := 40 } =
      Except.error PyErr.indexError := rfl

/-- C5 amended: move_executions never issues its PUT: its URL template
(ZAPI_URL followed by cycle, a cycle-id field, move/executions/folder and
a folder-id field — with no folder-id path segment between the cycle id
and move) has three replacement fields, but only the folder's cycle id and
folder id are supplied, so URL formatting raises IndexError on every
input, whatever the transport would answer. -/
theorem C5_move_executions_always_indexError
    (transport : String → MovePayload → HttpResponse)
    (executions : List Execution) (folder : Folder) :
    Zephyr.move_executions transport executions folder = Except.error PyErr.indexError := by
  unfold Zephyr.move_executions
  rw [pyFormat_move_executions]

/-- C6: calling executions_zql against a server answering status 200 with
a JSON object body carrying a (truthy) errorDesc entry raises
jira.JIRAError from inside get — an authorization error, not a successful
empty result. -/
theorem C6_zql_error_body_raises (server query : String) (r : HttpResponse)
    (kvs : List (String × Json)) (v : Json)
    (hstatus : r.status_code = 200)
    (hjson : r.json = some (Json.obj kvs))
    (hdesc : List.lookup ERROR_DESC kvs = some v)
    (htruthy : truthy (some v) = true) :
    Zephyr.executions_zql (fun _ => r) server query =
      Except.error (PyErr.jiraError Option.none) := by
  unfold Zephyr.executions_zql
  rw [pyFormat_executions_zql]
  simp [Zephyr.get, resilientsession.raise_on_error, hstatus, hjson, dictGet, hdesc, htruthy]

/-- C6 witness: the theorem at the spec's concrete scenario — the query
'project = FOO' against a server answering 200 with errorDesc
'no permission' and errorId 'ERROR'. -/
theorem C6_zql_error_body_raises_witness :
    Zephyr.executions_zql (fun _ => permissionErrorResponse) "https://jira" "project = FOO" =
      Except.error (PyErr.jiraError Option.none) :=
  C6_zql_error_body_raises "https://jira" "project = FOO" permissionErrorResponse
    [("errorDesc", Json.str "no permission"), ("errorId", Json.str "ERROR")]
    (Json.str "no permission") rfl rfl rfl rfl

/-- C7 counterexample: a 200 response whose raw body is the array text []
contains no error marker, and its parsed JSON has no error-description
field (it is not even an object), yet the GET-path normalization raises:
response.json().get on a parsed array raises AttributeError. -/
theorem C7_array_body_counterexample :
    arrayBodyResponse.status_code = 200 ∧
    strContainsSub arrayBodyResponse.content ERROR_DESC = false ∧
    arrayBodyResponse.json = some (Json.arr []) ∧
    Zephyr.get (fun _ => arrayBodyResponse) "https://jira/u" =
      Except.error PyErr.attributeError :=
  ⟨rfl, rfl, rfl, rfl⟩

/-- C7 amended: every response with a non-2xx status makes the GET-path
normalization raise; every response with status 200 whose body contains no
error marker and whose parsed JSON is an object with no error-description
entry passes the GET without error. -/
theorem C7_normalization_raises_iff (r : HttpResponse) (url : String) :
    ((r.status_code < 200 ∨ 300 ≤ r.status_code) →
      Zephyr.get (fun _ => r) url = Except.error (PyErr.jiraError (some r))) ∧
    (∀ kvs : List (String × Json), r.status_code = 200 →
      strContainsSub r.content ERROR_DESC = false →
      r.json = some (Json.obj kvs) →
      List.lookup ERROR_DESC kvs = Option.none →
      Zephyr.get (fun _ => r) url = Except.ok Option.none) := by
  constructor
  · intro hbad
    have hro : resilientsession.raise_on_error (some r) =
        Except.error (PyErr.jiraError (some r)) := by
      simp only [resilientsession.raise_on_error]
      rw [if_neg]
      omega
    simp [Zephyr.get, hro]
  · intro kvs h200 hmark hjson hlook
    simp [Zephyr.get, resilientsession.raise_on_error, h200, hjson, dictGet, hlook, truthy]

/-- C7 witness: the amended theorem at a genuine 401 response and at a
clean 200 response. -/
theorem C7_normalization_raises_iff_witness :
    Zephyr.get (fun _ => unauthorizedResponse) "https://jira/u2" =
      Except.error (PyErr.jiraError (some unauthorizedResponse)) ∧
    Zephyr.get (fun _ => cyclesOkResponse) "https://jira/u3" = Except.ok Option.none :=
  ⟨(C7_normalization_raises_iff unauthorizedResponse "https://jira/u2").1 (by decide),
   (C7_normalization_raises_iff cyclesOkResponse "https://jira/u3").2 [] rfl rfl rfl rfl⟩

/-- C8: evaluation at the failing input: executions with ids 7 and 8, a
folder (project 1, version 2, cycle 3, folder 4) and a transport answering
every PUT with status 200.  The claim requires the call to issue a PUT
with the three-key body and to return without error on the 200 response;
instead URL formatting raises IndexError (the template has three
replacement fields, the call supplies two arguments) before any request
is made. -/
theorem C8_move_executions_never_puts :
    Zephyr.move_executions okTransport [{ id := 7 }, { id := 8 }]
        { project := 1, version := 2, cycle := 3, id_ := 4 } =
      Except.error PyErr.indexError := rfl

/-- C9: the project cache: a first read from the fresh state performs
exactly one discovery call and loads the mapped collection; any read from
a loaded state returns the memoized collection, leaves the state unchanged
and performs no discovery call; in particular the second of two reads from
the fresh state performs none, so two reads perform exactly one discovery
call in total. -/
theorem C9_projects_loaded_once (discovery : List JiraProject) (tag : Nat) :
    (Zephyr.projects discovery tag Zephyr.initState).2.2 = 1 ∧
    (Zephyr.projects discovery tag Zephyr.initState).1._projects =
      some (discovery.map fun x => { name := x.key, id_ := x.id, session := tag }) ∧
    (∀ s : Zephyr.State, s._projects ≠ Option.none →
      Zephyr.projects discovery tag s = (s, s._projects, 0)) ∧
    (Zephyr.projects discovery tag
        (Zephyr.projects discovery tag Zephyr.initState).1).2.2 = 0 := by
  refine ⟨rfl, rfl, ?_, rfl⟩
  intro s hs
  unfold Zephyr.projects
  rw [if_neg hs]

/-- C9 witness: the theorem at a one-project discovery list, with the
loaded-state read taken at a concrete loaded state. -/
theorem C9_projects_loaded_once_witness :
    (Zephyr.projects fooDiscovery 0 Zephyr.initState).2.2 = 1 ∧
    (Zephyr.projects fooDiscovery 0 Zephyr.initState).1._projects =
      some (fooDiscovery.map fun x => { name := x.key, id_ := x.id, session := 0 }) ∧
    Zephyr.projects fooDiscovery 0 { _projects := some demoProjects } =
      ({ _projects := some demoProjects }, some demoProjects, 0) ∧
    (Zephyr.projects fooDiscovery 0
        (Zephyr.projects fooDiscovery 0 Zephyr.initState).1).2.2 = 0 :=
  have h := C9_projects_loaded_once fooDiscovery 0
  ⟨h.1, h.2.1, h.2.2.1 { _projects := some demoProjects } (by decide), h.2.2.2⟩

/-- C10: project name lookup: when the case-sensitive filter of the loaded
collection by the requested name has exactly one element, project returns
it; when it has zero or more than one, project fails with the ValueError
of tuple unpacking rather than a handled not-found result. -/
theorem C10_project_unique_name (ps : List Project) (name : String) :
    (∀ p : Project, ps.filter (fun x => x.name == name) = [p] →
      Zephyr.project ps name = Except.ok p) ∧
    ((ps.filter (fun x => x.name == name)).length ≠ 1 →
      Zephyr.project ps name = Except.error PyErr.valueError) := by
  constructor
  · intro p h
    unfold Zephyr.project
    rw [h]
  · intro h
    unfold Zephyr.project
    cases hl : ps.filter (fun x => x.name == name) with
    | nil => rfl
    | cons a t =>
      cases t with
      | nil => rw [hl] at h; simp at h
      | cons b t2 => rfl

/-- C10 witness: the theorem on a collection holding projects FOO, foo and
BAR: the lookup for FOO is case-sensitive and returns the unique match;
the lookup for BAZ matches nothing and fails. -/
theorem C10_project_unique_name_witness :
    Zephyr.project demoProjects "FOO" = Except.ok { name := "FOO", id_ := 1, session := 0 } ∧
    Zephyr.project demoProjects "BAZ" = Except.error PyErr.valueError :=
  ⟨(C10_project_unique_name demoProjects "FOO").1
      { name := "FOO", id_ := 1, session := 0 } (by decide),
   (C10_project_unique_name demoProjects "BAZ").2 (by decide)⟩
